import Mathlib

/-!
Verification development for the infant cradle monitoring controller
(`src/backedcode.c`, an Arduino sketch).

The sketch is shallowly embedded as follows.

* All global mutable variables of the sketch become fields of one `State`
  structure (the spec's "single owned scheduler context").
* `unsigned long` millisecond timestamps are modelled as `Nat`; every
  subtraction on them in the C code is the unsigned 32-bit subtraction,
  embedded as `usub32` (reduction modulo 2^32).
* C `int` counters (`swingCycles`, `beepCount`) are modelled as `Int`.
* The DHT temperature (C `float`, with `NaN` for a failed read) is modelled
  as `Option ℚ`: `none` is the invalid (NaN) reading, since the sketch only
  ever compares the value against the threshold `30.0`.
* `digitalWrite`/pin levels are the two-valued `PinLevel`; the fan relay is
  active-low (`LOW` = fan ON), matching the sketch.
* `Servo.read`/`Servo.write` become the `servoAngle` field (the library
  returns the last written angle).
* `sendSMS` is modelled as appending the (number, message) pair to an
  `smsLog` output trace; the serial/GSM bytes and `delay`s have no further
  state effect on the controller.
* `millis()` calls that occur inside a single pass of `loop` (in
  `handleUrine` and `startBuzzer`) are modelled as the tick's timestamp,
  the value fetched at the top of `loop`.
* `updateLCD` and `Serial` prints only produce display output and are not
  part of the controller state.
-/

/-- Digital pin level (`LOW`/`HIGH`). -/
inductive PinLevel
  | LOW
  | HIGH
deriving DecidableEq


/-- Mirror of `enum CradleState { IDLE, SWINGING_FORWARD, SWINGING_BACK, RETURNING }`. -/
inductive CradleState
  | IDLE
  | SWINGING_FORWARD
  | SWINGING_BACK
  | RETURNING
deriving DecidableEq


/-- Mirror of `enum BuzzerMode { OFF, CRY_ALERT, WET_ALERT }`. -/
inductive BuzzerMode
  | OFF
  | CRY_ALERT
  | WET_ALERT
deriving DecidableEq


/-- Unsigned 32-bit subtraction `a - b` on wrapped millisecond counters: the
value of the C expression `a - b` with both operands `unsigned long`
(32 bits on the target). -/
def usub32 (a b : Nat) : Nat :=
  (a % 2 ^ 32 + (2 ^ 32 - b % 2 ^ 32)) % 2 ^ 32


/-- Constant `TEMPERATURE_THRESHOLD` (30.0 °C). -/
def TEMPERATURE_THRESHOLD : ℚ := 30


/-- Constant `WETNESS_THRESHOLD` (analog value 500). -/
def WETNESS_THRESHOLD : Int := 500


/-- Constant `CRADLE_SWING_SPEED` (30 ms between servo updates). -/
def CRADLE_SWING_SPEED : Nat := 30


/-- Constant `CRADLE_POS_REST` (60°). -/
def CRADLE_POS_REST : Nat := 60


/-- Constant `CRADLE_POS_MIN` (30°). -/
def CRADLE_POS_MIN : Nat := 30


/-- Constant `CRADLE_POS_MAX` (90°). -/
def CRADLE_POS_MAX : Nat := 90


/-- Constant `PARENT_PHONE_NUMBER`. -/
def PARENT_PHONE_NUMBER : String := "+917416640739"


/-- All global mutable state of the sketch, plus the servo position, the two
output pins it latches, and the outbound SMS log. -/
structure State where
  lastSensorReadTime : Nat
  isDiaperAlertActive : Bool
  diaperAlertStartTime : Nat
  cradleState : CradleState
  lastSwingTime : Nat
  swingCycles : Int
  isBuzzerActive : Bool
  buzzerPatternStartTime : Nat
  beepCount : Int
  buzzerMode : BuzzerMode
  servoAngle : Nat
  fanPin : PinLevel
  buzzerPin : PinLevel
  smsLog : List (String × String)
deriving DecidableEq


/-- State right after `setup()`: fan pin HIGH (fan OFF), buzzer pin LOW,
servo at `CRADLE_POS_REST`, all state machines idle/inactive, timers zero. -/
def initState : State where
  lastSensorReadTime := 0
  isDiaperAlertActive := false
  diaperAlertStartTime := 0
  cradleState := .IDLE
  lastSwingTime := 0
  swingCycles := 0
  isBuzzerActive := false
  buzzerPatternStartTime := 0
  beepCount := 0
  buzzerMode := .OFF
  servoAngle := CRADLE_POS_REST
  fanPin := .HIGH
  buzzerPin := .LOW
  smsLog := []


/-- One sensor poll, as read at the top of the sampling block: DHT
temperature (`none` for NaN), soil analog value, sound digital level. -/
structure SensorInput where
  temperature : Option ℚ
  soilValue : Int
  soundValue : PinLevel
deriving DecidableEq


/-- Mirror of `sendSMS(number, message)`: record the outbound message. -/
def sendSMS (number message : String) (s : State) : State :=
  { s with smsLog := s.smsLog ++ [(number, message)] }


/-- Mirror of `handleTemperature`. -/
def handleTemperature (temperature : ℚ) (s : State) : State :=
  if temperature > TEMPERATURE_THRESHOLD then { s with fanPin := .LOW }
  else { s with fanPin := .HIGH }


/-- Mirror of `startBuzzer(mode, count)`; `now` is the `millis()` value at
the call. -/
def startBuzzer (mode : BuzzerMode) (count : Int) (now : Nat) (s : State) : State :=
  if s.isBuzzerActive = true then s
  else
    { s with buzzerMode := mode
             beepCount := count * 2
             buzzerPatternStartTime := now
             isBuzzerActive := true }


/-- Mirror of `handleCry(soundValue)`; `now` is the tick timestamp (used for
the `millis()` call inside `startBuzzer`). -/
def handleCry (soundValue : PinLevel) (now : Nat) (s : State) : State :=
  if soundValue = .LOW ∧ s.cradleState = .IDLE then
    let s := { s with cradleState := .SWINGING_FORWARD, swingCycles := 3 }
    let s := startBuzzer .CRY_ALERT 3 now s
    sendSMS PARENT_PHONE_NUMBER "Alert: Baby is Crying!" s
  else s


/-- Mirror of `handleUrine(soilValue)`; `now` is the tick timestamp (used
for the `millis()` calls inside). -/
def handleUrine (soilValue : Int) (now : Nat) (s : State) : State :=
  if soilValue < WETNESS_THRESHOLD ∧ s.isDiaperAlertActive = false then
    let s := { s with isDiaperAlertActive := true, diaperAlertStartTime := now }
    let s := startBuzzer .WET_ALERT 3 now s
    sendSMS PARENT_PHONE_NUMBER "Alert: Diaper is wet. Please check." s
  else s


/-- Mirror of `manageCradleSwing(currentTime)`. -/
def manageCradleSwing (currentTime : Nat) (s : State) : State :=
  if s.cradleState = .IDLE ∨ usub32 currentTime s.lastSwingTime < CRADLE_SWING_SPEED then s
  else
    let s := { s with lastSwingTime := currentTime }
    let currentPos := s.servoAngle
    match s.cradleState with
    | .IDLE => s
    | .SWINGING_FORWARD =>
        if currentPos < CRADLE_POS_MAX then { s with servoAngle := currentPos + 1 }
        else { s with cradleState := .SWINGING_BACK }
    | .SWINGING_BACK =>
        if currentPos > CRADLE_POS_MIN then { s with servoAngle := currentPos - 1 }
        else
          let cyc := s.swingCycles - 1
          if cyc > 0 then { s with swingCycles := cyc, cradleState := .SWINGING_FORWARD }
          else { s with swingCycles := cyc, cradleState := .RETURNING }
    | .RETURNING =>
        if currentPos < CRADLE_POS_REST then { s with servoAngle := currentPos + 1 }
        else if currentPos > CRADLE_POS_REST then { s with servoAngle := currentPos - 1 }
        else { s with cradleState := .IDLE }


/-- Mirror of `manageBuzzer(currentTime)`. -/
def manageBuzzer (currentTime : Nat) (s : State) : State :=
  if s.isBuzzerActive = false then s
  else
    let onDuration : Nat := if s.buzzerMode = .CRY_ALERT then 200 else 500
    let offDuration : Nat := if s.buzzerMode = .CRY_ALERT then 200 else 500
    let elapsedTime := usub32 currentTime s.buzzerPatternStartTime
    if s.beepCount > 0 then
      let s :=
        if elapsedTime % (onDuration + offDuration) < onDuration then
          { s with buzzerPin := .HIGH }
        else
          { s with buzzerPin := .LOW }
      if elapsedTime ≥ onDuration + offDuration then
        { s with beepCount := s.beepCount - 2, buzzerPatternStartTime := currentTime }
      else s
    else
      { s with buzzerPin := .LOW, isBuzzerActive := false, buzzerMode := .OFF }


/-- Mirror of `manageDiaperAlertMessage(currentTime)`. -/
def manageDiaperAlertMessage (currentTime : Nat) (s : State) : State :=
  if s.isDiaperAlertActive = true ∧ usub32 currentTime s.diaperAlertStartTime > 5000 then
    { s with isDiaperAlertActive := false }
  else s


/-- Mirror of one pass of `loop()`: the 500 ms-gated sampling block (which
skips all rule evaluation when the temperature read is NaN), followed by the
three always-run managers. -/
def loop (currentTime : Nat) (inp : SensorInput) (s : State) : State :=
  let s :=
    if usub32 currentTime s.lastSensorReadTime ≥ 500 then
      let s := { s with lastSensorReadTime := currentTime }
      match inp.temperature with
      | some temperature =>
          let s := handleTemperature temperature s
          let s := handleCry inp.soundValue currentTime s
          handleUrine inp.soilValue currentTime s
      | none => s
    else s
  let s := manageCradleSwing currentTime s
  let s := manageBuzzer currentTime s
  manageDiaperAlertMessage currentTime s


/-- Run `loop` over a list of (timestamp, sensor poll) ticks. -/
def runLoop (ticks : List (Nat × SensorInput)) (s : State) : State :=
  ticks.foldl (fun s p => loop p.1 p.2 s) s


/-- States of the whole program reachable from boot by any sequence of
scheduler ticks with any sensor inputs. -/
inductive Reachable : State → Prop
  | init : Reachable initState
  | step (s : State) (t : Nat) (inp : SensorInput) :
      Reachable s → Reachable (loop t inp s)

/-- The three cradle-FSM fields of `State` that `manageCradleSwing` steps:
the `switch` body of the function acts only on these. -/
structure CradleCore where
  st : CradleState
  cycles : Int
  pos : Nat
deriving DecidableEq

/-- The cradle advancement step: the `switch (cradleState)` body of
`manageCradleSwing`, taken when the 30 ms guard has passed. -/
def cradleStep (c : CradleCore) : CradleCore :=
  match c.st with
  | .IDLE => c
  | .SWINGING_FORWARD =>
      if c.pos < CRADLE_POS_MAX then { c with pos := c.pos + 1 }
      else { c with st := .SWINGING_BACK }
  | .SWINGING_BACK =>
      if c.pos > CRADLE_POS_MIN then { c with pos := c.pos - 1 }
      else
        let cyc := c.cycles - 1
        if cyc > 0 then { c with cycles := cyc, st := .SWINGING_FORWARD }
        else { c with cycles := cyc, st := .RETURNING }
  | .RETURNING =>
      if c.pos < CRADLE_POS_REST then { c with pos := c.pos + 1 }
      else if c.pos > CRADLE_POS_REST then { c with pos := c.pos - 1 }
      else { c with st := .IDLE }

/-- Iterate `cradleStep` a given number of times (one application per
elapsed 30 ms step of `manageCradleSwing`). -/
def cradleRun (c : CradleCore) : Nat → CradleCore
  | 0 => c
  | k+1 => cradleRun (cradleStep c) k

/-- Marker: the FSM sits at the top of a forward sweep. -/
def maxMark (x : CradleCore) : Bool :=
  decide (x.st = .SWINGING_FORWARD ∧ x.pos = 90)


/-- Marker: the FSM sits at the bottom of a back sweep. -/
def minMark (x : CradleCore) : Bool :=
  decide (x.st = .SWINGING_BACK ∧ x.pos = 30)

/-- Inductive invariant tying the servo angle range to the buzzer bookkeeping. -/
def GoodState (s : State) : Prop :=
  30 ≤ s.servoAngle ∧ s.servoAngle ≤ 90 ∧
  (s.isBuzzerActive = false → s.buzzerMode = .OFF ∧ s.beepCount = 0) ∧
  (s.isBuzzerActive = true → 0 ≤ s.beepCount ∧ 2 ∣ s.beepCount)

/-- Number of "baby crying" alert sends issued so far. -/
def cryCount (s : State) : Nat :=
  s.smsLog.count (PARENT_PHONE_NUMBER, "Alert: Baby is Crying!")


/-- Number of "diaper wet" alert sends issued so far. -/
def wetCount (s : State) : Nat :=
  s.smsLog.count (PARENT_PHONE_NUMBER, "Alert: Diaper is wet. Please check.")

/-- Condition under which the wetness rule fires on a tick: the sampling
window has elapsed, the temperature read back valid, the soil reading is
below the threshold, and no diaper alert is currently active. -/
def wetRuleFires (t : Nat) (inp : SensorInput) (s : State) : Prop :=
  usub32 t s.lastSensorReadTime ≥ 500 ∧ inp.temperature.isSome = true
    ∧ inp.soilValue < WETNESS_THRESHOLD ∧ s.isDiaperAlertActive = false

instance (t : Nat) (inp : SensorInput) (s : State) : Decidable (wetRuleFires t inp s) := by
  unfold wetRuleFires
  infer_instance

/-- Controller state right after the cry rule arms the buzzer at time 0 from
boot: `startBuzzer(CRY_ALERT, 3)` on the boot state. -/
def buzzBoot : State := startBuzzer .CRY_ALERT 3 0 initState

/-- Trace of states produced by calling `manageBuzzer` on consecutive
1 ms ticks: `buzzRunStates t s n` lists the states after the ticks at times
`t, t+1, ..., t+n-1` (the "sufficiently frequent ticks" schedule). -/
def buzzRunStates : Nat → State → Nat → List State
  | _, _, 0 => []
  | t, s, n+1 =>
    let s' := manageBuzzer t s
    s' :: buzzRunStates (t+1) s' n

/-- State after `n` 1 ms ticks of `manageBuzzer` starting at time `t`. -/
def buzzIter (t : Nat) (s : State) : Nat → State
  | 0 => s
  | n+1 => buzzIter (t + 1) (manageBuzzer t s) n

/-- Buzzer pin level the code drives on the 1 ms tick at relative time `k`
after arming with `CRY_ALERT, 3`: HIGH during the three 200 ms pulses that
start at 0, 400 and 800, and once more on the single tick at 1200 where the
final beep pair is consumed. -/
def expectedBuzzPin (k : Nat) : PinLevel :=
  if k ≤ 1200 ∧ k % 400 < 200 then .HIGH else .LOW

/-- Full controller state after the 1 ms tick at relative time `k` of the
`CRY_ALERT, 3` pattern started at time 0 from boot. -/
def expectedBuzzState (k : Nat) : State :=
  { initState with
    buzzerPin := expectedBuzzPin k
    isBuzzerActive := decide (k ≤ 1200)
    buzzerMode := if k ≤ 1200 then .CRY_ALERT else .OFF
    beepCount := 6 - 2 * (Int.ofNat (min 3 (k / 400)))
    buzzerPatternStartTime := 400 * min 3 (k / 400) }

/-- Final controller state after the CryAlert pattern has finished (the tick
at relative time 1201 deactivates the pattern). -/
def buzzFinal : State := { initState with buzzerPatternStartTime := 1200 }

set_option maxRecDepth 40000

set_option maxHeartbeats 4000000

theorem cradleRun_succ (c : CradleCore) (k : Nat) :
    cradleRun c (k+1) = cradleRun (cradleStep c) k := rfl

theorem cradleRun_add (c : CradleCore) (a b : Nat) :
    cradleRun c (a + b) = cradleRun (cradleRun c a) b := by
  induction a generalizing c with
  | zero => simp [cradleRun]
  | succ a ih =>
      rw [show a + 1 + b = (a + b) + 1 from by omega,
        cradleRun_succ c (a+b), ih, cradleRun_succ c a]

theorem step_fwd (c : Int) (a : Nat) (h : a < 90) :
    cradleStep ⟨.SWINGING_FORWARD, c, a⟩ = ⟨.SWINGING_FORWARD, c, a + 1⟩ := by
  simp [cradleStep, CRADLE_POS_MAX, h]

theorem step_fwd_max (c : Int) :
    cradleStep ⟨.SWINGING_FORWARD, c, 90⟩ = ⟨.SWINGING_BACK, c, 90⟩ := by rfl

theorem step_back (c : Int) (a : Nat) (h : 30 < a) :
    cradleStep ⟨.SWINGING_BACK, c, a⟩ = ⟨.SWINGING_BACK, c, a - 1⟩ := by
  simp [cradleStep, CRADLE_POS_MIN, h]

theorem step_back_min_pos (c : Int) (h : 1 < c) :
    cradleStep ⟨.SWINGING_BACK, c, 30⟩ = ⟨.SWINGING_FORWARD, c - 1, 30⟩ := by
  simp [cradleStep, CRADLE_POS_MIN]
  omega

theorem step_back_min_last (c : Int) (h : c ≤ 1) :
    cradleStep ⟨.SWINGING_BACK, c, 30⟩ = ⟨.RETURNING, c - 1, 30⟩ := by
  simp [cradleStep, CRADLE_POS_MIN]
  omega

theorem fwd_ramp (k : Nat) : ∀ (c : Int) (a : Nat), a + k ≤ 90 →
    cradleRun ⟨.SWINGING_FORWARD, c, a⟩ k = ⟨.SWINGING_FORWARD, c, a + k⟩ := by
  induction k with
  | zero => intro c a _; rfl
  | succ k ih =>
      intro c a h
      rw [cradleRun_succ, step_fwd c a (by omega), ih c (a+1) (by omega)]
      congr 1
      omega

theorem back_ramp (k : Nat) : ∀ (c : Int) (a : Nat), 30 + k ≤ a → a ≤ 90 →
    cradleRun ⟨.SWINGING_BACK, c, a⟩ k = ⟨.SWINGING_BACK, c, a - k⟩ := by
  induction k with
  | zero => intro c a _ _; rfl
  | succ k ih =>
      intro c a h h2
      rw [cradleRun_succ, step_back c a (by omega), ih c (a-1) (by omega) (by omega)]
      congr 1
      omega

theorem blockA (c : Int) (k : Nat) (hk : k ≤ 91) :
    cradleRun ⟨.SWINGING_FORWARD, c, 60⟩ k =
      if k ≤ 30 then ⟨.SWINGING_FORWARD, c, 60 + k⟩
      else ⟨.SWINGING_BACK, c, 121 - k⟩ := by
  by_cases h : k ≤ 30
  · rw [fwd_ramp k c 60 (by omega), if_pos h]
  · obtain ⟨j, rfl⟩ : ∃ j, k = 31 + j := ⟨k - 31, by omega⟩
    rw [cradleRun_add, show (31 : Nat) = 30 + 1 from rfl, cradleRun_add,
      fwd_ramp 30 c 60 (by omega)]
    rw [show (60 + 30 : Nat) = 90 from rfl]
    rw [show cradleRun ⟨.SWINGING_FORWARD, c, 90⟩ 1 = ⟨.SWINGING_BACK, c, 90⟩ from rfl]
    rw [back_ramp j c 90 (by omega) (by omega), if_neg h]
    congr 1
    omega

theorem blockB (c : Int) (k : Nat) (hk : k ≤ 121) :
    cradleRun ⟨.SWINGING_FORWARD, c, 30⟩ k =
      if k ≤ 60 then ⟨.SWINGING_FORWARD, c, 30 + k⟩
      else ⟨.SWINGING_BACK, c, 151 - k⟩ := by
  by_cases h : k ≤ 60
  · rw [fwd_ramp k c 30 (by omega), if_pos h]
  · obtain ⟨j, rfl⟩ : ∃ j, k = 61 + j := ⟨k - 61, by omega⟩
    rw [cradleRun_add, show (61 : Nat) = 60 + 1 from rfl, cradleRun_add,
      fwd_ramp 60 c 30 (by omega)]
    rw [show (30 + 60 : Nat) = 90 from rfl]
    rw [show cradleRun ⟨.SWINGING_FORWARD, c, 90⟩ 1 = ⟨.SWINGING_BACK, c, 90⟩ from rfl]
    rw [back_ramp j c 90 (by omega) (by omega), if_neg h]
    congr 1
    omega

/-- Marker: the FSM sits at the top of a forward sweep. -/

theorem blockA_marks (c : Int) (k : Nat) (hk : k ≤ 91) :
    (maxMark (cradleRun ⟨.SWINGING_FORWARD, c, 60⟩ k) = decide (k = 30)) ∧
    (minMark (cradleRun ⟨.SWINGING_FORWARD, c, 60⟩ k) = decide (k = 91)) ∧
    (cradleRun ⟨.SWINGING_FORWARD, c, 60⟩ k).st ≠ .RETURNING := by
  rw [blockA c k hk]
  by_cases h : k ≤ 30 <;> simp [h, maxMark, minMark] <;> omega

theorem blockB_marks (c : Int) (k : Nat) (hk : k ≤ 121) :
    (maxMark (cradleRun ⟨.SWINGING_FORWARD, c, 30⟩ k) = decide (k = 60)) ∧
    (minMark (cradleRun ⟨.SWINGING_FORWARD, c, 30⟩ k) = decide (k = 121)) ∧
    (cradleRun ⟨.SWINGING_FORWARD, c, 30⟩ k).st ≠ .RETURNING := by
  rw [blockB c k hk]
  by_cases h : k ≤ 60 <;> simp [h, maxMark, minMark] <;> omega

theorem countA_max (c : Int) :
    (List.range 92).countP (fun k => maxMark (cradleRun ⟨.SWINGING_FORWARD, c, 60⟩ k)) = 1 := by
  have hq : (List.range 92).countP (fun k => maxMark (cradleRun ⟨.SWINGING_FORWARD, c, 60⟩ k))
      = (List.range 92).countP (fun k => decide (k = 30)) := by
    refine List.countP_congr ?_
    intro k hk
    rw [List.mem_range] at hk
    rw [(blockA_marks c k (by omega)).1]
  rw [hq]
  decide

theorem countA_min (c : Int) :
    (List.range 92).countP (fun k => minMark (cradleRun ⟨.SWINGING_FORWARD, c, 60⟩ k)) = 1 := by
  have hq : (List.range 92).countP (fun k => minMark (cradleRun ⟨.SWINGING_FORWARD, c, 60⟩ k))
      = (List.range 92).countP (fun k => decide (k = 91)) := by
    refine List.countP_congr ?_
    intro k hk
    rw [List.mem_range] at hk
    rw [(blockA_marks c k (by omega)).2.1]
  rw [hq]
  decide

theorem countB_max (c : Int) :
    (List.range 122).countP (fun k => maxMark (cradleRun ⟨.SWINGING_FORWARD, c, 30⟩ k)) = 1 := by
  have hq : (List.range 122).countP (fun k => maxMark (cradleRun ⟨.SWINGING_FORWARD, c, 30⟩ k))
      = (List.range 122).countP (fun k => decide (k = 60)) := by
    refine List.countP_congr ?_
    intro k hk
    rw [List.mem_range] at hk
    rw [(blockB_marks c k (by omega)).1]
  rw [hq]
  decide

theorem countB_min (c : Int) :
    (List.range 122).countP (fun k => minMark (cradleRun ⟨.SWINGING_FORWARD, c, 30⟩ k)) = 1 := by
  have hq : (List.range 122).countP (fun k => minMark (cradleRun ⟨.SWINGING_FORWARD, c, 30⟩ k))
      = (List.range 122).countP (fun k => decide (k = 121)) := by
    refine List.countP_congr ?_
    intro k hk
    rw [List.mem_range] at hk
    rw [(blockB_marks c k (by omega)).2.1]
  rw [hq]
  decide

theorem boundaryB (c : Int) :
    cradleRun ⟨.SWINGING_FORWARD, c, 30⟩ 122 = cradleStep ⟨.SWINGING_BACK, c, 30⟩ := by
  rw [show (122 : Nat) = 121 + 1 from rfl, cradleRun_add, blockB c 121 (by omega)]
  norm_num
  rfl

theorem boundaryA (c : Int) :
    cradleRun ⟨.SWINGING_FORWARD, c, 60⟩ 92 = cradleStep ⟨.SWINGING_BACK, c, 30⟩ := by
  rw [show (92 : Nat) = 91 + 1 from rfl, cradleRun_add, blockA c 91 (by omega)]
  norm_num
  rfl

theorem cyc (m : Nat) : ∀ c : Int, c = (m : Int) + 1 →
    (∀ k < 122 * (m + 1), (cradleRun ⟨.SWINGING_FORWARD, c, 30⟩ k).st ≠ .RETURNING)
    ∧ cradleRun ⟨.SWINGING_FORWARD, c, 30⟩ (122 * (m + 1)) = ⟨.RETURNING, 0, 30⟩
    ∧ (List.range (122 * (m + 1))).countP
        (fun k => maxMark (cradleRun ⟨.SWINGING_FORWARD, c, 30⟩ k)) = m + 1
    ∧ (List.range (122 * (m + 1))).countP
        (fun k => minMark (cradleRun ⟨.SWINGING_FORWARD, c, 30⟩ k)) = m + 1 := by
  induction m with
  | zero =>
      intro c hc
      subst hc
      norm_num
      refine ⟨?_, by decide, by decide, by decide⟩
      intro k hk
      exact (blockB_marks 1 k (by omega)).2.2
  | succ m ih =>
      intro c hc
      have hb : cradleRun ⟨.SWINGING_FORWARD, c, 30⟩ 122
          = ⟨.SWINGING_FORWARD, c - 1, 30⟩ := by
        rw [boundaryB, step_back_min_pos c (by omega)]
      have hsplit : 122 * (m + 1 + 1) = 122 + 122 * (m + 1) := by ring
      have hshift : ∀ k : Nat, cradleRun ⟨.SWINGING_FORWARD, c, 30⟩ (122 + k)
          = cradleRun ⟨.SWINGING_FORWARD, c - 1, 30⟩ k := by
        intro k
        rw [cradleRun_add, hb]
      obtain ⟨ihA, ihB, ihC, ihD⟩ := ih (c - 1) (by omega)
      refine ⟨?_, ?_, ?_, ?_⟩
      · intro k hk
        by_cases h : k < 122
        · exact (blockB_marks c k (by omega)).2.2
        · obtain ⟨j, rfl⟩ : ∃ j, k = 122 + j := ⟨k - 122, by omega⟩
          rw [hshift]
          exact ihA j (by omega)
      · rw [hsplit, hshift, ihB]
      · rw [hsplit, List.range_add, List.countP_append, List.countP_map, countB_max]
        have : (List.range (122 * (m + 1))).countP
            ((fun k => maxMark (cradleRun ⟨.SWINGING_FORWARD, c, 30⟩ k)) ∘ (122 + ·))
            = m + 1 := by
          have hq : (List.range (122 * (m + 1))).countP
              ((fun k => maxMark (cradleRun ⟨.SWINGING_FORWARD, c, 30⟩ k)) ∘ (122 + ·))
              = (List.range (122 * (m + 1))).countP
                  (fun k => maxMark (cradleRun ⟨.SWINGING_FORWARD, c - 1, 30⟩ k)) := by
            refine List.countP_congr ?_
            intro k _
            simp only [Function.comp]
            rw [hshift]
          rw [hq]
          exact ihC
        omega
      · rw [hsplit, List.range_add, List.countP_append, List.countP_map, countB_min]
        have : (List.range (122 * (m + 1))).countP
            ((fun k => minMark (cradleRun ⟨.SWINGING_FORWARD, c, 30⟩ k)) ∘ (122 + ·))
            = m + 1 := by
          have hq : (List.range (122 * (m + 1))).countP
              ((fun k => minMark (cradleRun ⟨.SWINGING_FORWARD, c, 30⟩ k)) ∘ (122 + ·))
              = (List.range (122 * (m + 1))).countP
                  (fun k => minMark (cradleRun ⟨.SWINGING_FORWARD, c - 1, 30⟩ k)) := by
            refine List.countP_congr ?_
            intro k _
            simp only [Function.comp]
            rw [hshift]
          rw [hq]
          exact ihD
        omega

theorem mcs_corresp (t : Nat) (s : State) (h1 : s.cradleState ≠ .IDLE)
    (h2 : usub32 t s.lastSwingTime ≥ CRADLE_SWING_SPEED) :
    manageCradleSwing t s =
      { s with lastSwingTime := t,
               cradleState := (cradleStep ⟨s.cradleState, s.swingCycles, s.servoAngle⟩).st,
               swingCycles := (cradleStep ⟨s.cradleState, s.swingCycles, s.servoAngle⟩).cycles,
               servoAngle := (cradleStep ⟨s.cradleState, s.swingCycles, s.servoAngle⟩).pos } := by
  rw [manageCradleSwing, if_neg (by push_neg; exact ⟨h1, by omega⟩)]
  cases hc : s.cradleState with
  | IDLE => exact absurd hc h1
  | SWINGING_FORWARD =>
      simp only [cradleStep, hc]
      by_cases hp : s.servoAngle < CRADLE_POS_MAX <;> simp [hp]
  | SWINGING_BACK =>
      simp only [cradleStep, hc]
      by_cases hp : s.servoAngle > CRADLE_POS_MIN
      · simp [hp]
      · by_cases hcy : s.swingCycles - 1 > 0 <;> simp [hp, hcy]
  | RETURNING =>
      simp only [cradleStep, hc]
      by_cases hp : s.servoAngle < CRADLE_POS_REST
      · simp [hp]
      · by_cases hq : s.servoAngle > CRADLE_POS_REST <;> simp [hp, hq]

theorem cradle_cycles_aux (N : Nat) (hN : 1 ≤ N) :
    (∀ k < 92 + 122 * (N - 1),
      (cradleRun ⟨.SWINGING_FORWARD, (N : Int), 60⟩ k).st ≠ .RETURNING)
    ∧ cradleRun ⟨.SWINGING_FORWARD, (N : Int), 60⟩ (92 + 122 * (N - 1))
        = ⟨.RETURNING, 0, 30⟩
    ∧ (List.range (92 + 122 * (N - 1))).countP
        (fun k => maxMark (cradleRun ⟨.SWINGING_FORWARD, (N : Int), 60⟩ k)) = N
    ∧ (List.range (92 + 122 * (N - 1))).countP
        (fun k => minMark (cradleRun ⟨.SWINGING_FORWARD, (N : Int), 60⟩ k)) = N := by
  obtain ⟨m, rfl⟩ : ∃ m, N = m + 1 := ⟨N - 1, by omega⟩
  rw [show m + 1 - 1 = m from by omega]
  match m with
  | 0 =>
      norm_num
      refine ⟨?_, ?_, by rw [countA_max], by rw [countA_min]⟩
      · intro k hk
        exact (blockA_marks 1 k (by omega)).2.2
      · rw [boundaryA, step_back_min_last 1 (by omega)]
        rfl
  | m + 1 =>
      have hb : cradleRun ⟨.SWINGING_FORWARD, ((m + 1 + 1 : Nat) : Int), 60⟩ 92
          = ⟨.SWINGING_FORWARD, ((m : Int) + 1), 30⟩ := by
        rw [boundaryA, step_back_min_pos _ (by push_cast; omega)]
        congr 1
        push_cast
        ring
      have hshift : ∀ k : Nat,
          cradleRun ⟨.SWINGING_FORWARD, ((m + 1 + 1 : Nat) : Int), 60⟩ (92 + k)
          = cradleRun ⟨.SWINGING_FORWARD, ((m : Int) + 1), 30⟩ k := by
        intro k
        rw [cradleRun_add, hb]
      obtain ⟨ihA, ihB, ihC, ihD⟩ := cyc m ((m : Int) + 1) rfl
      refine ⟨?_, ?_, ?_, ?_⟩
      · intro k hk
        by_cases h : k < 92
        · exact (blockA_marks _ k (by omega)).2.2
        · obtain ⟨j, rfl⟩ : ∃ j, k = 92 + j := ⟨k - 92, by omega⟩
          rw [hshift]
          exact ihA j (by omega)
      · rw [hshift, ihB]
      · rw [List.range_add, List.countP_append, List.countP_map, countA_max]
        have : (List.range (122 * (m + 1))).countP
            ((fun k => maxMark (cradleRun ⟨.SWINGING_FORWARD, ((m + 1 + 1 : Nat) : Int), 60⟩ k))
              ∘ (92 + ·)) = m + 1 := by
          have hq : (List.range (122 * (m + 1))).countP
              ((fun k => maxMark (cradleRun ⟨.SWINGING_FORWARD, ((m + 1 + 1 : Nat) : Int), 60⟩ k))
                ∘ (92 + ·))
              = (List.range (122 * (m + 1))).countP
                  (fun k => maxMark (cradleRun ⟨.SWINGING_FORWARD, ((m : Int) + 1), 30⟩ k)) := by
            refine List.countP_congr ?_
            intro k _
            simp only [Function.comp]
            rw [hshift]
          rw [hq]
          exact ihC
        omega
      · rw [List.range_add, List.countP_append, List.countP_map, countA_min]
        have : (List.range (122 * (m + 1))).countP
            ((fun k => minMark (cradleRun ⟨.SWINGING_FORWARD, ((m + 1 + 1 : Nat) : Int), 60⟩ k))
              ∘ (92 + ·)) = m + 1 := by
          have hq : (List.range (122 * (m + 1))).countP
              ((fun k => minMark (cradleRun ⟨.SWINGING_FORWARD, ((m + 1 + 1 : Nat) : Int), 60⟩ k))
                ∘ (92 + ·))
              = (List.range (122 * (m + 1))).countP
                  (fun k => minMark (cradleRun ⟨.SWINGING_FORWARD, ((m : Int) + 1), 30⟩ k)) := by
            refine List.countP_congr ?_
            intro k _
            simp only [Function.comp]
            rw [hshift]
          rw [hq]
          exact ihD
        omega

@[simp] theorem mcs_lastSensorReadTime (t : Nat) (s : State) :
    (manageCradleSwing t s).lastSensorReadTime = s.lastSensorReadTime := by
  unfold manageCradleSwing
  dsimp only
  repeat' split
  all_goals rfl

@[simp] theorem mcs_isDiaperAlertActive (t : Nat) (s : State) :
    (manageCradleSwing t s).isDiaperAlertActive = s.isDiaperAlertActive := by
  unfold manageCradleSwing
  dsimp only
  repeat' split
  all_goals rfl

@[simp] theorem mcs_diaperAlertStartTime (t : Nat) (s : State) :
    (manageCradleSwing t s).diaperAlertStartTime = s.diaperAlertStartTime := by
  unfold manageCradleSwing
  dsimp only
  repeat' split
  all_goals rfl

@[simp] theorem mcs_isBuzzerActive (t : Nat) (s : State) :
    (manageCradleSwing t s).isBuzzerActive = s.isBuzzerActive := by
  unfold manageCradleSwing
  dsimp only
  repeat' split
  all_goals rfl

@[simp] theorem mcs_buzzerPatternStartTime (t : Nat) (s : State) :
    (manageCradleSwing t s).buzzerPatternStartTime = s.buzzerPatternStartTime := by
  unfold manageCradleSwing
  dsimp only
  repeat' split
  all_goals rfl

@[simp] theorem mcs_beepCount (t : Nat) (s : State) :
    (manageCradleSwing t s).beepCount = s.beepCount := by
  unfold manageCradleSwing
  dsimp only
  repeat' split
  all_goals rfl

@[simp] theorem mcs_buzzerMode (t : Nat) (s : State) :
    (manageCradleSwing t s).buzzerMode = s.buzzerMode := by
  unfold manageCradleSwing
  dsimp only
  repeat' split
  all_goals rfl

@[simp] theorem mcs_fanPin (t : Nat) (s : State) :
    (manageCradleSwing t s).fanPin = s.fanPin := by
  unfold manageCradleSwing
  dsimp only
  repeat' split
  all_goals rfl

@[simp] theorem mcs_buzzerPin (t : Nat) (s : State) :
    (manageCradleSwing t s).buzzerPin = s.buzzerPin := by
  unfold manageCradleSwing
  dsimp only
  repeat' split
  all_goals rfl

@[simp] theorem mcs_smsLog (t : Nat) (s : State) :
    (manageCradleSwing t s).smsLog = s.smsLog := by
  unfold manageCradleSwing
  dsimp only
  repeat' split
  all_goals rfl

@[simp] theorem mb_lastSensorReadTime (t : Nat) (s : State) :
    (manageBuzzer t s).lastSensorReadTime = s.lastSensorReadTime := by
  unfold manageBuzzer
  dsimp only
  repeat' split
  all_goals rfl

@[simp] theorem mb_isDiaperAlertActive (t : Nat) (s : State) :
    (manageBuzzer t s).isDiaperAlertActive = s.isDiaperAlertActive := by
  unfold manageBuzzer
  dsimp only
  repeat' split
  all_goals rfl

@[simp] theorem mb_diaperAlertStartTime (t : Nat) (s : State) :
    (manageBuzzer t s).diaperAlertStartTime = s.diaperAlertStartTime := by
  unfold manageBuzzer
  dsimp only
  repeat' split
  all_goals rfl

@[simp] theorem mb_cradleState (t : Nat) (s : State) :
    (manageBuzzer t s).cradleState = s.cradleState := by
  unfold manageBuzzer
  dsimp only
  repeat' split
  all_goals rfl

@[simp] theorem mb_lastSwingTime (t : Nat) (s : State) :
    (manageBuzzer t s).lastSwingTime = s.lastSwingTime := by
  unfold manageBuzzer
  dsimp only
  repeat' split
  all_goals rfl

@[simp] theorem mb_swingCycles (t : Nat) (s : State) :
    (manageBuzzer t s).swingCycles = s.swingCycles := by
  unfold manageBuzzer
  dsimp only
  repeat' split
  all_goals rfl

@[simp] theorem mb_servoAngle (t : Nat) (s : State) :
    (manageBuzzer t s).servoAngle = s.servoAngle := by
  unfold manageBuzzer
  dsimp only
  repeat' split
  all_goals rfl

@[simp] theorem mb_fanPin (t : Nat) (s : State) :
    (manageBuzzer t s).fanPin = s.fanPin := by
  unfold manageBuzzer
  dsimp only
  repeat' split
  all_goals rfl

@[simp] theorem mb_smsLog (t : Nat) (s : State) :
    (manageBuzzer t s).smsLog = s.smsLog := by
  unfold manageBuzzer
  dsimp only
  repeat' split
  all_goals rfl

@[simp] theorem md_lastSensorReadTime (t : Nat) (s : State) :
    (manageDiaperAlertMessage t s).lastSensorReadTime = s.lastSensorReadTime := by
  unfold manageDiaperAlertMessage
  repeat' split
  all_goals rfl

@[simp] theorem md_diaperAlertStartTime (t : Nat) (s : State) :
    (manageDiaperAlertMessage t s).diaperAlertStartTime = s.diaperAlertStartTime := by
  unfold manageDiaperAlertMessage
  repeat' split
  all_goals rfl

@[simp] theorem md_cradleState (t : Nat) (s : State) :
    (manageDiaperAlertMessage t s).cradleState = s.cradleState := by
  unfold manageDiaperAlertMessage
  repeat' split
  all_goals rfl

@[simp] theorem md_lastSwingTime (t : Nat) (s : State) :
    (manageDiaperAlertMessage t s).lastSwingTime = s.lastSwingTime := by
  unfold manageDiaperAlertMessage
  repeat' split
  all_goals rfl

@[simp] theorem md_swingCycles (t : Nat) (s : State) :
    (manageDiaperAlertMessage t s).swingCycles = s.swingCycles := by
  unfold manageDiaperAlertMessage
  repeat' split
  all_goals rfl

@[simp] theorem md_isBuzzerActive (t : Nat) (s : State) :
    (manageDiaperAlertMessage t s).isBuzzerActive = s.isBuzzerActive := by
  unfold manageDiaperAlertMessage
  repeat' split
  all_goals rfl

@[simp] theorem md_buzzerPatternStartTime (t : Nat) (s : State) :
    (manageDiaperAlertMessage t s).buzzerPatternStartTime = s.buzzerPatternStartTime := by
  unfold manageDiaperAlertMessage
  repeat' split
  all_goals rfl

@[simp] theorem md_beepCount (t : Nat) (s : State) :
    (manageDiaperAlertMessage t s).beepCount = s.beepCount := by
  unfold manageDiaperAlertMessage
  repeat' split
  all_goals rfl

@[simp] theorem md_buzzerMode (t : Nat) (s : State) :
    (manageDiaperAlertMessage t s).buzzerMode = s.buzzerMode := by
  unfold manageDiaperAlertMessage
  repeat' split
  all_goals rfl

@[simp] theorem md_servoAngle (t : Nat) (s : State) :
    (manageDiaperAlertMessage t s).servoAngle = s.servoAngle := by
  unfold manageDiaperAlertMessage
  repeat' split
  all_goals rfl

@[simp] theorem md_fanPin (t : Nat) (s : State) :
    (manageDiaperAlertMessage t s).fanPin = s.fanPin := by
  unfold manageDiaperAlertMessage
  repeat' split
  all_goals rfl

@[simp] theorem md_buzzerPin (t : Nat) (s : State) :
    (manageDiaperAlertMessage t s).buzzerPin = s.buzzerPin := by
  unfold manageDiaperAlertMessage
  repeat' split
  all_goals rfl

@[simp] theorem md_smsLog (t : Nat) (s : State) :
    (manageDiaperAlertMessage t s).smsLog = s.smsLog := by
  unfold manageDiaperAlertMessage
  repeat' split
  all_goals rfl

theorem handleTemperature_eq (temp : ℚ) (s : State) :
    handleTemperature temp s
      = { s with fanPin := if temp > TEMPERATURE_THRESHOLD then .LOW else .HIGH } := by
  unfold handleTemperature
  split <;> simp_all

/-- Inductive invariant tying the servo angle range to the buzzer bookkeeping. -/

@[simp] theorem sb_smsLog (m : BuzzerMode) (c : Int) (now : Nat) (s : State) :
    (startBuzzer m c now s).smsLog = s.smsLog := by
  unfold startBuzzer
  split <;> rfl

@[simp] theorem sb_isDiaperAlertActive (m : BuzzerMode) (c : Int) (now : Nat) (s : State) :
    (startBuzzer m c now s).isDiaperAlertActive = s.isDiaperAlertActive := by
  unfold startBuzzer
  split <;> rfl

@[simp] theorem sb_diaperAlertStartTime (m : BuzzerMode) (c : Int) (now : Nat) (s : State) :
    (startBuzzer m c now s).diaperAlertStartTime = s.diaperAlertStartTime := by
  unfold startBuzzer
  split <;> rfl

@[simp] theorem sb_lastSensorReadTime (m : BuzzerMode) (c : Int) (now : Nat) (s : State) :
    (startBuzzer m c now s).lastSensorReadTime = s.lastSensorReadTime := by
  unfold startBuzzer
  split <;> rfl

@[simp] theorem ht_cradleState (q : ℚ) (s : State) :
    (handleTemperature q s).cradleState = s.cradleState := by
  rw [handleTemperature_eq]

@[simp] theorem ht_smsLog (q : ℚ) (s : State) :
    (handleTemperature q s).smsLog = s.smsLog := by
  rw [handleTemperature_eq]

@[simp] theorem ht_isDiaperAlertActive (q : ℚ) (s : State) :
    (handleTemperature q s).isDiaperAlertActive = s.isDiaperAlertActive := by
  rw [handleTemperature_eq]

@[simp] theorem ht_diaperAlertStartTime (q : ℚ) (s : State) :
    (handleTemperature q s).diaperAlertStartTime = s.diaperAlertStartTime := by
  rw [handleTemperature_eq]

@[simp] theorem hc_isDiaperAlertActive (v : PinLevel) (now : Nat) (s : State) :
    (handleCry v now s).isDiaperAlertActive = s.isDiaperAlertActive := by
  unfold handleCry
  split <;> simp [sendSMS]

@[simp] theorem hc_diaperAlertStartTime (v : PinLevel) (now : Nat) (s : State) :
    (handleCry v now s).diaperAlertStartTime = s.diaperAlertStartTime := by
  unfold handleCry
  split <;> simp [sendSMS]

@[simp] theorem hc_lastSensorReadTime (v : PinLevel) (now : Nat) (s : State) :
    (handleCry v now s).lastSensorReadTime = s.lastSensorReadTime := by
  unfold handleCry
  split <;> simp [sendSMS]

/-- Number of "baby crying" alert sends issued so far. -/

theorem good_init : GoodState initState := by
  refine ⟨by decide, by decide, fun _ => ⟨rfl, rfl⟩, fun h => by simp [initState] at h⟩

theorem good_ht (temp : ℚ) (s : State) (h : GoodState s) :
    GoodState (handleTemperature temp s) := by
  rw [handleTemperature_eq]
  exact h

theorem good_sb (m : BuzzerMode) (now : Nat) (s : State) (h : GoodState s) :
    GoodState (startBuzzer m 3 now s) := by
  unfold startBuzzer
  split
  · exact h
  · exact ⟨h.1, h.2.1, by simp, fun _ => by norm_num⟩

theorem good_hc (v : PinLevel) (now : Nat) (s : State) (h : GoodState s) :
    GoodState (handleCry v now s) := by
  unfold handleCry
  split
  · exact good_sb .CRY_ALERT now _ h
  · exact h

theorem good_hu (v : Int) (now : Nat) (s : State) (h : GoodState s) :
    GoodState (handleUrine v now s) := by
  unfold handleUrine
  split
  · exact good_sb .WET_ALERT now _ h
  · exact h

theorem good_mcs (t : Nat) (s : State) (h : GoodState s) :
    GoodState (manageCradleSwing t s) := by
  unfold manageCradleSwing
  dsimp only
  obtain ⟨h1, h2, h3, h4⟩ := h
  repeat' split
  all_goals refine ⟨?_, ?_, h3, h4⟩
  all_goals dsimp only
  all_goals (try simp only [CRADLE_POS_MAX, CRADLE_POS_MIN, CRADLE_POS_REST] at *)
  all_goals omega

theorem good_mb (t : Nat) (s : State) (h : GoodState s) :
    GoodState (manageBuzzer t s) := by
  unfold manageBuzzer
  obtain ⟨h1, h2, h3, h4⟩ := h
  dsimp only
  split
  · exact ⟨h1, h2, h3, h4⟩
  next hact =>
    rw [Bool.not_eq_false] at hact
    have hb := h4 hact
    repeat' split
    all_goals
      refine ⟨h1, h2, ?_, ?_⟩
    all_goals simp_all
    all_goals omega

theorem good_md (t : Nat) (s : State) (h : GoodState s) :
    GoodState (manageDiaperAlertMessage t s) := by
  unfold manageDiaperAlertMessage
  split
  · exact ⟨h.1, h.2.1, h.2.2.1, h.2.2.2⟩
  · exact h

theorem good_loop (t : Nat) (inp : SensorInput) (s : State) (h : GoodState s) :
    GoodState (loop t inp s) := by
  unfold loop
  dsimp only
  apply good_md
  apply good_mb
  apply good_mcs
  split
  · match inp.temperature with
    | some temp => exact good_hu _ _ _ (good_hc _ _ _ (good_ht _ _ h))
    | none => exact h
  · exact h

theorem good_reachable (s : State) (h : Reachable s) : GoodState s := by
  induction h with
  | init => exact good_init
  | step s t inp _ ih => exact good_loop t inp s ih

@[simp] theorem cryCount_mcs (t : Nat) (s : State) :
    cryCount (manageCradleSwing t s) = cryCount s := by
  unfold cryCount
  rw [mcs_smsLog]

@[simp] theorem cryCount_mb (t : Nat) (s : State) :
    cryCount (manageBuzzer t s) = cryCount s := by
  unfold cryCount
  rw [mb_smsLog]

@[simp] theorem cryCount_md (t : Nat) (s : State) :
    cryCount (manageDiaperAlertMessage t s) = cryCount s := by
  unfold cryCount
  rw [md_smsLog]

@[simp] theorem wetCount_mcs (t : Nat) (s : State) :
    wetCount (manageCradleSwing t s) = wetCount s := by
  unfold wetCount
  rw [mcs_smsLog]

@[simp] theorem wetCount_mb (t : Nat) (s : State) :
    wetCount (manageBuzzer t s) = wetCount s := by
  unfold wetCount
  rw [mb_smsLog]

@[simp] theorem wetCount_md (t : Nat) (s : State) :
    wetCount (manageDiaperAlertMessage t s) = wetCount s := by
  unfold wetCount
  rw [md_smsLog]

theorem hc_cryCount (v : PinLevel) (now : Nat) (s : State) :
    cryCount (handleCry v now s)
      = cryCount s + if v = .LOW ∧ s.cradleState = .IDLE then 1 else 0 := by
  unfold handleCry cryCount
  split
  next h => simp [sendSMS, h]
  next h => simp [h]

theorem hu_cryCount (v : Int) (now : Nat) (s : State) :
    cryCount (handleUrine v now s) = cryCount s := by
  unfold handleUrine cryCount
  split
  next h => simp [sendSMS]
  next h => rfl

theorem hc_wetCount (v : PinLevel) (now : Nat) (s : State) :
    wetCount (handleCry v now s) = wetCount s := by
  unfold handleCry wetCount
  split
  next h => simp [sendSMS]
  next h => rfl

theorem hu_wetCount (v : Int) (now : Nat) (s : State) :
    wetCount (handleUrine v now s)
      = wetCount s
        + if v < WETNESS_THRESHOLD ∧ s.isDiaperAlertActive = false then 1 else 0 := by
  unfold handleUrine wetCount
  split
  next h => simp [sendSMS, h]
  next h => simp [h]

@[simp] theorem ht_cryCount (q : ℚ) (s : State) :
    cryCount (handleTemperature q s) = cryCount s := by
  unfold cryCount
  rw [ht_smsLog]

@[simp] theorem ht_wetCount (q : ℚ) (s : State) :
    wetCount (handleTemperature q s) = wetCount s := by
  unfold wetCount
  rw [ht_smsLog]

theorem usub32_of_le (a b : Nat) (hba : b ≤ a) (ha : a < 2 ^ 32) :
    usub32 a b = a - b := by
  unfold usub32
  have h32 : (2 : Nat) ^ 32 = 4294967296 := by norm_num
  rw [h32] at *
  omega

theorem hu_active (v : Int) (now : Nat) (s : State) (h : s.isDiaperAlertActive = true) :
    handleUrine v now s = s := by
  unfold handleUrine
  rw [if_neg (by simp [h])]

theorem diaper_step (t : Nat) (inp : SensorInput) (s : State)
    (hact : s.isDiaperAlertActive = true) :
    ((loop t inp s).isDiaperAlertActive = true
      ∧ (loop t inp s).diaperAlertStartTime = s.diaperAlertStartTime)
    ∨ ((loop t inp s).isDiaperAlertActive = false
      ∧ usub32 t s.diaperAlertStartTime > 5000) := by
  unfold loop
  dsimp only
  by_cases hdue : usub32 t s.lastSensorReadTime ≥ 500
  · rw [if_pos hdue]
    cases htemp : inp.temperature with
    | none =>
        dsimp only
        unfold manageDiaperAlertMessage
        split
        next h =>
          rw [mb_diaperAlertStartTime, mcs_diaperAlertStartTime] at h
          right
          exact ⟨rfl, h.2⟩
        next h =>
          left
          simp [hact]
    | some q =>
        dsimp only
        rw [hu_active _ _ _ (by simp [hact])]
        unfold manageDiaperAlertMessage
        split
        next h =>
          rw [mb_diaperAlertStartTime, mcs_diaperAlertStartTime] at h
          simp only [hc_diaperAlertStartTime, ht_diaperAlertStartTime] at h
          right
          exact ⟨rfl, h.2⟩
        next h =>
          left
          simp [hact]
  · rw [if_neg hdue]
    unfold manageDiaperAlertMessage
    split
    next h =>
      rw [mb_diaperAlertStartTime, mcs_diaperAlertStartTime] at h
      right
      exact ⟨rfl, h.2⟩
    next h =>
      left
      simp [hact]

theorem buzzRunStates_add (a : Nat) : ∀ (t : Nat) (s : State) (b : Nat),
    buzzRunStates t s (a + b)
      = buzzRunStates t s a ++ buzzRunStates (t + a) (buzzIter t s a) b := by
  induction a with
  | zero =>
      intro t s b
      simp [buzzRunStates, buzzIter]
  | succ a ih =>
      intro t s b
      rw [show a + 1 + b = (a + b) + 1 from by omega]
      show manageBuzzer t s :: buzzRunStates (t + 1) (manageBuzzer t s) (a + b) = _
      rw [ih (t + 1) (manageBuzzer t s) b]
      show _ = (manageBuzzer t s :: buzzRunStates (t + 1) (manageBuzzer t s) a)
          ++ buzzRunStates (t + (a + 1)) (buzzIter (t + 1) (manageBuzzer t s) a) b
      rw [List.cons_append, show t + (a + 1) = t + 1 + a from by omega]

theorem chunkA : buzzRunStates 0 buzzBoot 300 = (List.range 300).map expectedBuzzState := by rfl

theorem chunkA2 : buzzIter 0 buzzBoot 300 = expectedBuzzState 299 := by rfl

theorem chunkB : buzzRunStates 300 (expectedBuzzState 299) 300
    = (List.range 300).map (fun k => expectedBuzzState (300 + k)) := by rfl

theorem chunkB2 : buzzIter 300 (expectedBuzzState 299) 300 = expectedBuzzState 599 := by rfl

theorem chunkC : buzzRunStates 600 (expectedBuzzState 599) 300
    = (List.range 300).map (fun k => expectedBuzzState (600 + k)) := by rfl

theorem chunkC2 : buzzIter 600 (expectedBuzzState 599) 300 = expectedBuzzState 899 := by rfl

theorem chunkD : buzzRunStates 900 (expectedBuzzState 899) 302
    = (List.range 302).map (fun k => expectedBuzzState (900 + k)) := by rfl

theorem buzzMaster :
    buzzRunStates 0 buzzBoot 1202 = (List.range 1202).map expectedBuzzState := by
  have hsplit : ∀ (f : Nat → State) (a b : Nat), (List.range (a + b)).map f
      = (List.range a).map f ++ (List.range b).map (fun k => f (a + k)) := by
    intro f a b
    rw [List.range_add, List.map_append, List.map_map]
    rfl
  rw [show (1202 : Nat) = 300 + 902 from rfl, buzzRunStates_add, chunkA, chunkA2,
    show (902 : Nat) = 300 + 602 from rfl, buzzRunStates_add, chunkB, chunkB2,
    show (602 : Nat) = 300 + 302 from rfl, buzzRunStates_add, chunkC, chunkC2,
    show (300 + 300 : Nat) = 600 from rfl, show (600 + 300 : Nat) = 900 from rfl, chunkD]
  rw [hsplit, hsplit, hsplit]
  rw [show (fun k => expectedBuzzState (300 + (300 + k)))
      = fun k => expectedBuzzState (600 + k) from funext fun k => by
        rw [show 300 + (300 + k) = 600 + k from by omega]]
  rw [show (fun k => expectedBuzzState (300 + (300 + (300 + k))))
      = fun k => expectedBuzzState (900 + k) from funext fun k => by
        rw [show 300 + (300 + (300 + k)) = 900 + k from by omega]]

theorem pinTrace :
    (buzzRunStates 0 buzzBoot 1202).map State.buzzerPin
      = (List.range 1202).map expectedBuzzPin := by
  rw [buzzMaster, List.map_map]
  rfl
/-- C1: in every state reachable from boot (servo initialized to 60°) the
servo angle stays within [30°, 90°] inclusive, and a `manageCradleSwing`
step takes a non-Idle FSM to Idle exactly when the 30 ms guard has elapsed,
the FSM is in Returning, and the step observes the angle to be exactly the
60° rest position. -/
theorem cradle_angle_invariant_and_idle_iff :
    (∀ s, Reachable s → CRADLE_POS_MIN ≤ s.servoAngle ∧ s.servoAngle ≤ CRADLE_POS_MAX)
    ∧ (∀ t s, s.cradleState ≠ .IDLE →
        ((manageCradleSwing t s).cradleState = .IDLE ↔
          usub32 t s.lastSwingTime ≥ CRADLE_SWING_SPEED ∧ s.cradleState = .RETURNING
            ∧ s.servoAngle = CRADLE_POS_REST)) := by
  constructor
  · intro s hs
    exact ⟨(good_reachable s hs).1, (good_reachable s hs).2.1⟩
  · intro t s hne
    by_cases hg : usub32 t s.lastSwingTime ≥ CRADLE_SWING_SPEED
    · rw [mcs_corresp t s hne hg]
      dsimp only
      cases hc : s.cradleState with
      | IDLE => exact absurd hc hne
      | SWINGING_FORWARD =>
          simp only [cradleStep]
          split <;> simp [hc]
      | SWINGING_BACK =>
          simp only [cradleStep]
          repeat' split
          all_goals simp [hc]
      | RETURNING =>
          simp only [cradleStep]
          repeat' split
          all_goals simp [hc, hg]
          all_goals omega
    · have hid : manageCradleSwing t s = s := by
        unfold manageCradleSwing
        rw [if_pos (Or.inr (by omega))]
      rw [hid]
      constructor
      · intro h
        exact absurd h hne
      · intro h
        exact absurd h.1 hg

/-- Witness for C1: both parts instantiated, at the boot state and at a
concrete Returning state due for a step. -/
theorem cradle_angle_invariant_and_idle_iff_witness :
    (CRADLE_POS_MIN ≤ initState.servoAngle ∧ initState.servoAngle ≤ CRADLE_POS_MAX)
    ∧ ((manageCradleSwing 30 { initState with cradleState := .RETURNING }).cradleState = .IDLE ↔
        usub32 30 ({ initState with cradleState := .RETURNING } : State).lastSwingTime
            ≥ CRADLE_SWING_SPEED
          ∧ ({ initState with cradleState := .RETURNING } : State).cradleState = .RETURNING
          ∧ ({ initState with cradleState := .RETURNING } : State).servoAngle = CRADLE_POS_REST) :=
  ⟨cradle_angle_invariant_and_idle_iff.1 initState Reachable.init,
   cradle_angle_invariant_and_idle_iff.2 30 { initState with cradleState := .RETURNING }
     (by decide)⟩

/-- C2: on a sampling tick with the cry line LOW and the cradle FSM Idle,
`handleCry` starts the swing (SwingingForward, 3 cycles), arms the buzzer in
CryAlert mode with 3 beeps (6 half-cycle units) only when the buzzer is
inactive, and sends exactly one "baby crying" SMS; when the cradle is not
Idle, or the line is HIGH, nothing happens. The last conjunct states the
per-tick send count of the full `loop`: a cry SMS is issued exactly on the
ticks where the sampling window has elapsed, the temperature read is valid,
the line is LOW and the cradle is Idle, so the send is edge-triggered on FSM
idleness and re-triggers while swinging are suppressed. -/
theorem cry_rule_fires_exactly_on_idle :
    (∀ now s, s.cradleState = .IDLE → s.isBuzzerActive = false →
        handleCry .LOW now s
          = { s with cradleState := .SWINGING_FORWARD, swingCycles := 3,
                     buzzerMode := .CRY_ALERT, beepCount := 6,
                     buzzerPatternStartTime := now, isBuzzerActive := true,
                     smsLog := s.smsLog ++ [(PARENT_PHONE_NUMBER, "Alert: Baby is Crying!")] })
    ∧ (∀ now s, s.cradleState = .IDLE → s.isBuzzerActive = true →
        handleCry .LOW now s
          = { s with cradleState := .SWINGING_FORWARD, swingCycles := 3,
                     smsLog := s.smsLog ++ [(PARENT_PHONE_NUMBER, "Alert: Baby is Crying!")] })
    ∧ (∀ v now s, s.cradleState ≠ .IDLE → handleCry v now s = s)
    ∧ (∀ now s, handleCry .HIGH now s = s)
    ∧ (∀ t inp s,
        cryCount (loop t inp s)
          = cryCount s
            + if usub32 t s.lastSensorReadTime ≥ 500 ∧ inp.temperature.isSome = true
                ∧ inp.soundValue = .LOW ∧ s.cradleState = .IDLE then 1 else 0) := by
  refine ⟨?_, ?_, ?_, ?_, ?_⟩
  · intro now s h1 h2
    unfold handleCry
    rw [if_pos ⟨rfl, h1⟩]
    dsimp only
    unfold startBuzzer
    rw [if_neg (by simp [h2])]
    rfl
  · intro now s h1 h2
    unfold handleCry
    rw [if_pos ⟨rfl, h1⟩]
    dsimp only
    unfold startBuzzer
    rw [if_pos h2]
    rfl
  · intro v now s h
    unfold handleCry
    rw [if_neg (by simp [h])]
  · intro now s
    unfold handleCry
    rw [if_neg (by simp)]
  · intro t inp s
    unfold loop
    dsimp only
    by_cases hdue : usub32 t s.lastSensorReadTime ≥ 500
    · rw [if_pos hdue]
      cases htemp : inp.temperature with
      | none => simp [hdue, htemp, cryCount]
      | some q =>
          simp only [cryCount_md, cryCount_mb, cryCount_mcs]
          rw [hu_cryCount, hc_cryCount, ht_cradleState, ht_cryCount]
          dsimp only
          simp [hdue, htemp, cryCount]
    · rw [if_neg hdue]
      simp [hdue]


/-- Witness for C2: the firing equation instantiated at the boot state. -/
theorem cry_rule_fires_exactly_on_idle_witness :
    handleCry .LOW 500 initState
      = { initState with cradleState := .SWINGING_FORWARD, swingCycles := 3,
                         buzzerMode := .CRY_ALERT, beepCount := 6,
                         buzzerPatternStartTime := 500, isBuzzerActive := true,
                         smsLog := initState.smsLog
                           ++ [(PARENT_PHONE_NUMBER, "Alert: Baby is Crying!")] } :=
  cry_rule_fires_exactly_on_idle.1 500 initState rfl rfl

/-- C3: for every N ≥ 1, starting the cradle core in SwingingForward with
`swingCycles = N` at the 60° rest angle, the step sequence of
`manageCradleSwing` reaches Returning for the first time after exactly
92 + 122·(N−1) steps, having touched the 90° maximum exactly N times and
the 30° minimum exactly N times — i.e. exactly N forward-then-back sweeps
happen before the FSM enters Returning. The last conjunct ties `cradleStep`
to `manageCradleSwing`: whenever the FSM is not Idle and the 30 ms guard has
elapsed, `manageCradleSwing` performs exactly one `cradleStep` on the
cradle fields and stamps `lastSwingTime`. -/
theorem cradle_performs_exactly_n_cycles (N : Nat) (hN : 1 ≤ N) :
    (∀ k < 92 + 122 * (N - 1),
      (cradleRun ⟨.SWINGING_FORWARD, (N : Int), 60⟩ k).st ≠ .RETURNING)
    ∧ cradleRun ⟨.SWINGING_FORWARD, (N : Int), 60⟩ (92 + 122 * (N - 1))
        = ⟨.RETURNING, 0, 30⟩
    ∧ (List.range (92 + 122 * (N - 1))).countP
        (fun k => maxMark (cradleRun ⟨.SWINGING_FORWARD, (N : Int), 60⟩ k)) = N
    ∧ (List.range (92 + 122 * (N - 1))).countP
        (fun k => minMark (cradleRun ⟨.SWINGING_FORWARD, (N : Int), 60⟩ k)) = N
    ∧ (∀ t s, s.cradleState ≠ .IDLE → usub32 t s.lastSwingTime ≥ CRADLE_SWING_SPEED →
        manageCradleSwing t s =
          { s with lastSwingTime := t,
                   cradleState := (cradleStep ⟨s.cradleState, s.swingCycles, s.servoAngle⟩).st,
                   swingCycles := (cradleStep ⟨s.cradleState, s.swingCycles, s.servoAngle⟩).cycles,
                   servoAngle := (cradleStep ⟨s.cradleState, s.swingCycles, s.servoAngle⟩).pos }) := by
  obtain ⟨h1, h2, h3, h4⟩ := cradle_cycles_aux N hN
  exact ⟨h1, h2, h3, h4, fun t s ha hb => mcs_corresp t s ha hb⟩

/-- Witness for C3: with the cry rule value N = 3 the FSM reaches Returning
at step 92 + 122·2 = 336 with no cycles left, at the 30° minimum. -/
theorem cradle_performs_exactly_n_cycles_witness :
    cradleRun ⟨.SWINGING_FORWARD, ((3 : Nat) : Int), 60⟩ (92 + 122 * (3 - 1))
      = ⟨.RETURNING, 0, 30⟩ :=
  (cradle_performs_exactly_n_cycles 3 (by norm_num)).2.1

/-- C4 counterexample: running `manageBuzzer` on every millisecond after
`startBuzzer(CRY_ALERT, 3)` (armed from boot at time 0), the pin is LOW at
relative time 1100 (inside the third OFF gap) but is driven HIGH again at
1200 — after the three 200 ms ON-pulses and three 200 ms OFF gaps have
completed — so the pin is not "driven LOW after the 3 pulses": the run has
601 HIGH ticks, one more than the 600 of three 200 ms pulses. -/
theorem buzzer_extra_pulse_counterexample :
    ((buzzRunStates 0 buzzBoot 1202).map State.buzzerPin)[1100]? = some PinLevel.LOW
    ∧ ((buzzRunStates 0 buzzBoot 1202).map State.buzzerPin)[1200]? = some PinLevel.HIGH
    ∧ ((buzzRunStates 0 buzzBoot 1202).map State.buzzerPin).count PinLevel.HIGH = 601 := by
  rw [pinTrace]
  exact ⟨rfl, rfl, rfl⟩

/-- C4 (amended): started with CryAlert and count 3 while inactive, under
1 ms ticks the buzzer pin is HIGH exactly during the three 200 ms pulses
beginning at relative times 0, 400 and 800, each followed by a 200 ms OFF
gap, plus one single-tick ON glitch at time 1200 when the final beep pair is
consumed; from time 1201 on the pin is LOW and the pattern is inactive and
stays so under `manageBuzzer` until `startBuzzer` re-arms it. -/
theorem buzzer_pattern_three_pulses_plus_glitch :
    buzzBoot = startBuzzer .CRY_ALERT 3 0 initState
    ∧ (buzzRunStates 0 buzzBoot 1202).map State.buzzerPin
        = (List.range 1202).map expectedBuzzPin
    ∧ (buzzRunStates 0 buzzBoot 1202).getLast? = some buzzFinal
    ∧ (∀ t, manageBuzzer t buzzFinal = buzzFinal)
    ∧ (∀ t m c, startBuzzer m c t buzzFinal
        = { buzzFinal with buzzerMode := m, beepCount := c * 2,
                           buzzerPatternStartTime := t, isBuzzerActive := true }) := by
  refine ⟨rfl, pinTrace, ?_, fun _ => rfl, fun _ _ _ => rfl⟩
  rw [buzzMaster]
  rfl

/-- C5: the diaper alert deactivates exactly on the first tick observing
`now − startTime > 5000` ms and `manageDiaperAlertMessage` never changes the
recorded start time; along any run of `loop` with strictly increasing
wrap-free timestamps that begins with the alert active, the wetness rule can
only fire at a tick whose time exceeds the prior `startTime` by more than
5000 ms; and the per-tick "diaper wet" SMS count of `loop` increments
exactly when `wetRuleFires` holds, whatever the wetness readings are. -/
theorem diaper_timeout_and_rearm_spacing :
    (∀ t s, ((manageDiaperAlertMessage t s).isDiaperAlertActive = true ↔
        s.isDiaperAlertActive = true ∧ ¬ usub32 t s.diaperAlertStartTime > 5000)
      ∧ (manageDiaperAlertMessage t s).diaperAlertStartTime = s.diaperAlertStartTime)
    ∧ (∀ (ticks : List (Nat × SensorInput)) (s0 : State),
        s0.isDiaperAlertActive = true →
        (ticks.map Prod.fst).Pairwise (· < ·) →
        (∀ p ∈ ticks, s0.diaperAlertStartTime ≤ p.1 ∧ p.1 < 2 ^ 32) →
        s0.diaperAlertStartTime < 2 ^ 32 →
        ∀ i, (hi : i < ticks.length) →
          wetRuleFires (ticks[i].1) (ticks[i].2) (runLoop (ticks.take i) s0) →
          s0.diaperAlertStartTime + 5000 < (ticks[i]).1)
    ∧ (∀ t inp s,
        wetCount (loop t inp s) = wetCount s + if wetRuleFires t inp s then 1 else 0) := by
  refine ⟨?_, ?_, ?_⟩
  · intro t s
    constructor
    · unfold manageDiaperAlertMessage
      split
      next h => simp [h.1, h.2]
      next h =>
        constructor
        · intro ha
          refine ⟨ha, fun hc => h ⟨ha, hc⟩⟩
        · intro hb
          exact hb.1
    · simp
  · intro ticks
    induction ticks with
    | nil =>
        intro s0 hact hpw hbnd hst i hi
        simp at hi
    | cons p rest ih =>
        intro s0 hact hpw hbnd hst i hi hfire
        match i with
        | 0 =>
            exfalso
            have h0 : runLoop ((p :: rest).take 0) s0 = s0 := rfl
            rw [h0] at hfire
            rw [hfire.2.2.2] at hact
            exact Bool.false_ne_true hact
        | Nat.succ j =>
            rw [List.map_cons] at hpw
            have hpw' := List.pairwise_cons.mp hpw
            have hj : j < rest.length := by
              simp only [List.length_cons] at hi
              omega
            have htail : runLoop ((p :: rest).take (j + 1)) s0
                = runLoop (rest.take j) (loop p.1 p.2 s0) := by
              simp [runLoop, List.take_succ_cons]
            have hidx1 : ((p :: rest)[j + 1]).1 = (rest[j]).1 := by simp
            have hidx2 : ((p :: rest)[j + 1]).2 = (rest[j]).2 := by simp
            rw [hidx1]
            rw [hidx1, hidx2, htail] at hfire
            cases diaper_step p.1 p.2 s0 hact with
            | inl h =>
                have hres := ih (loop p.1 p.2 s0) h.1
                  hpw'.2
                  (by
                    intro q hq
                    rw [h.2]
                    exact hbnd q (List.mem_cons_of_mem p hq))
                  (by rw [h.2]; exact hst)
                  j hj hfire
                rw [h.2] at hres
                exact hres
            | inr h =>
                have hb := hbnd p (List.mem_cons_self p rest)
                rw [usub32_of_le p.1 s0.diaperAlertStartTime hb.1 hb.2] at h
                have hmem : (rest[j]).1 ∈ rest.map Prod.fst :=
                  List.mem_map_of_mem Prod.fst (rest.getElem_mem hj)
                have hlt := hpw'.1 _ hmem
                omega
  · intro t inp s
    unfold loop
    dsimp only
    by_cases hdue : usub32 t s.lastSensorReadTime ≥ 500
    · rw [if_pos hdue]
      cases htemp : inp.temperature with
      | none => simp [wetRuleFires, hdue, htemp, wetCount]
      | some q =>
          simp only [wetCount_md, wetCount_mb, wetCount_mcs]
          rw [hu_wetCount, hc_wetCount]
          simp only [hc_isDiaperAlertActive, ht_isDiaperAlertActive, ht_wetCount]
          simp [wetRuleFires, hdue, htemp, wetCount]
    · rw [if_neg hdue]
      simp [wetRuleFires, hdue]


/-- Witness for C5: with the alert armed at time 0, a dry tick at 6000 ms
clears it and a wet (reading 400) tick at 6500 ms re-fires; the theorem
yields 0 + 5000 < 6500. -/
theorem diaper_timeout_and_rearm_spacing_witness :
    ({ initState with isDiaperAlertActive := true } : State).diaperAlertStartTime + 5000
      < 6500 :=
  diaper_timeout_and_rearm_spacing.2.1
    [(6000, ⟨some 25, 600, .HIGH⟩), (6500, ⟨some 25, 400, .HIGH⟩)]
    { initState with isDiaperAlertActive := true }
    rfl (by decide) (by decide) (by decide) 1 (by decide) (by decide)

/-- C6: on a sampling tick whose temperature read is NaN, the whole tick is
the three managers applied to the state with only `lastSensorReadTime`
stamped: no rule runs, no SMS is sent, the fan pin is untouched, and the
sampling timer is set exactly as on a valid sample, so the next sample
attempt is the next tick on which 500 ms have again elapsed. -/
theorem invalid_temperature_skips_tick (t : Nat) (inp : SensorInput) (s : State)
    (hdue : usub32 t s.lastSensorReadTime ≥ 500) (hnan : inp.temperature = none) :
    loop t inp s
      = manageDiaperAlertMessage t (manageBuzzer t (manageCradleSwing t
          { s with lastSensorReadTime := t }))
    ∧ (loop t inp s).smsLog = s.smsLog
    ∧ (loop t inp s).fanPin = s.fanPin
    ∧ (loop t inp s).lastSensorReadTime = t := by
  have h1 : loop t inp s
      = manageDiaperAlertMessage t (manageBuzzer t (manageCradleSwing t
          { s with lastSensorReadTime := t })) := by
    unfold loop
    dsimp only
    rw [if_pos hdue, hnan]
  refine ⟨h1, ?_, ?_, ?_⟩ <;> rw [h1] <;> simp

/-- Witness for C6: the NaN tick at time 500 from boot. -/
theorem invalid_temperature_skips_tick_witness :
    loop 500 ⟨none, 600, .HIGH⟩ initState
      = manageDiaperAlertMessage 500 (manageBuzzer 500 (manageCradleSwing 500
          { initState with lastSensorReadTime := 500 }))
    ∧ (loop 500 ⟨none, 600, .HIGH⟩ initState).smsLog = initState.smsLog
    ∧ (loop 500 ⟨none, 600, .HIGH⟩ initState).fanPin = initState.fanPin
    ∧ (loop 500 ⟨none, 600, .HIGH⟩ initState).lastSensorReadTime = 500 :=
  invalid_temperature_skips_tick 500 ⟨none, 600, .HIGH⟩ initState (by decide) rfl

/-- C7: `startBuzzer` called while the buzzer is active is a no-op: the
whole state — in particular `beepCount`, `buzzerMode`,
`buzzerPatternStartTime` and `isBuzzerActive` — is returned unchanged,
whatever mode and count are requested. -/
theorem startBuzzer_noop_when_active (mode : BuzzerMode) (count : Int) (now : Nat) (s : State)
    (h : s.isBuzzerActive = true) :
    startBuzzer mode count now s = s := by
  unfold startBuzzer
  rw [if_pos h]

/-- Witness for C7: re-arming an active buzzer with a different mode and
count changes nothing. -/
theorem startBuzzer_noop_when_active_witness :
    startBuzzer .WET_ALERT 5 777 { initState with isBuzzerActive := true }
      = { initState with isBuzzerActive := true } :=
  startBuzzer_noop_when_active .WET_ALERT 5 777
    { initState with isBuzzerActive := true } rfl

/-- C8: in every state reachable from boot (where `startBuzzer` is invoked
only by the cry and wetness rules, each with count 3), an inactive buzzer
has `buzzerMode = OFF` and `beepCount = 0`. -/
theorem buzzer_inactive_implies_cleared (s : State) (h : Reachable s) (hb : s.isBuzzerActive = false) :
    s.buzzerMode = .OFF ∧ s.beepCount = 0 :=
  (good_reachable s h).2.2.1 hb

/-- Witness for C8: the invariant evaluated at the boot state. -/
theorem buzzer_inactive_implies_cleared_witness :
    initState.buzzerMode = .OFF ∧ initState.beepCount = 0 :=
  buzzer_inactive_implies_cleared initState Reachable.init rfl

/-- C9: `handleTemperature` drives the fan relay pin LOW (fan ON) exactly
when the sampled temperature is strictly above the 30.0 °C threshold and
HIGH (fan OFF) otherwise, touching nothing else — it is a pure function of
the current sample. The scenario conjuncts run the full `loop` on the
temperature sequence [25.0, 31.0, 29.0] at successive sampling ticks from
boot and observe the fan pin sequence [OFF, ON, OFF]. -/
theorem fan_rule_pure_threshold :
    (∀ (temp : ℚ) (s : State),
        handleTemperature temp s
          = { s with fanPin := if temp > TEMPERATURE_THRESHOLD then .LOW else .HIGH })
    ∧ (runLoop [(500, ⟨some 25, 600, .HIGH⟩)] initState).fanPin = .HIGH
    ∧ (runLoop [(500, ⟨some 25, 600, .HIGH⟩),
                (1000, ⟨some 31, 600, .HIGH⟩)] initState).fanPin = .LOW
    ∧ (runLoop [(500, ⟨some 25, 600, .HIGH⟩), (1000, ⟨some 31, 600, .HIGH⟩),
                (1500, ⟨some 29, 600, .HIGH⟩)] initState).fanPin = .HIGH :=
  ⟨handleTemperature_eq, by decide, by decide, by decide⟩

/-- C10: for timestamps `now1 < now2` whose true difference is below 2^32,
the unsigned 32-bit subtraction `usub32` of the wrapped counter values
recovers the exact elapsed time `now2 − now1`, even across a counter
wraparound; `usub32` is the subtraction used by every timer comparison in
the embedded `loop`, `manageCradleSwing`, `manageBuzzer` and
`manageDiaperAlertMessage`. -/
theorem usub32_wraparound_elapsed (now1 now2 : Nat) (h1 : now1 < now2) (h2 : now2 - now1 < 2 ^ 32) :
    usub32 (now2 % 2 ^ 32) (now1 % 2 ^ 32) = now2 - now1 := by
  unfold usub32
  have h32 : (2 : Nat) ^ 32 = 4294967296 := by norm_num
  rw [h32] at *
  omega

/-- Witness for C10: reads 100 ms before and 100 ms after the 2^32 ms
wraparound give an elapsed time of 200 ms. -/
theorem usub32_wraparound_elapsed_witness :
    usub32 ((2 ^ 32 + 100) % 2 ^ 32) ((2 ^ 32 - 100) % 2 ^ 32)
      = (2 ^ 32 + 100) - (2 ^ 32 - 100) :=
  usub32_wraparound_elapsed (2 ^ 32 - 100) (2 ^ 32 + 100) (by norm_num) (by norm_num)
